import Mathlib

/-!
Verification of the Harley-Davidson J2534/UDS diagnostic tool.

Shallow embedding of the ISO-TP transport layer (`isotp_handler.py`), the UDS
client (`uds_client.py`), the J2534 frame queue (`j2534_wrapper.py`) and the
connection facade (`harley_diagnostics.py`).  Byte strings are `List Nat`
(each element a byte value), CAN messages are `(arbitration id, data)` pairs,
and the polling loops of the source are modelled by the finite list of
messages they observe before their timeout expires.
-/

/-! ISO-TP frame type constants (isotp_handler.py lines 12-15). -/

def SINGLE_FRAME : Nat := 0x0

def FIRST_FRAME : Nat := 0x1

def CONSECUTIVE_FRAME : Nat := 0x2

def FLOW_CONTROL : Nat := 0x3

/-! Flow Control flags (isotp_handler.py lines 18-20). -/

def FC_CONTINUE : Nat := 0x0

def FC_WAIT : Nat := 0x1

def FC_OVERFLOW : Nat := 0x2

/-- A received or transmitted CAN message: (arbitration id, data bytes). -/
abbrev CanMsg := Nat × List Nat

/-! Error taxonomy (error_handler.py). -/

/-- `ErrorSeverity` enumeration (error_handler.py lines 19-25). -/
inductive ErrorSeverity where
  | INFO
  | WARNING
  | RECOVERABLE
  | CRITICAL
  | FATAL
deriving DecidableEq, Repr

/-- `ErrorCategory` enumeration (error_handler.py lines 28-37). -/
inductive ErrorCategory where
  | HARDWARE
  | CONNECTION
  | PROTOCOL
  | DATA
  | TIMEOUT
  | CONFIGURATION
  | SYSTEM
  | UNKNOWN
deriving DecidableEq, Repr

/-- A record registered with `global_error_handler.handle_error`. -/
structure ErrorRecord where
  message : String
  severity : ErrorSeverity
  category : ErrorCategory
deriving DecidableEq, Repr

/-! ISO-TP send path (isotp_handler.py). -/

/-- Padding to 8 bytes: `frame_data += bytes([0x00] * (8 - len(frame_data)))`,
guarded by `if len(frame_data) < 8` (isotp_handler.py lines 92-93, 125-126). -/
def padTo8 (frame : List Nat) : List Nat :=
  if frame.length < 8 then frame ++ List.replicate (8 - frame.length) 0x00 else frame

/-- `ISOTPHandler._send_single_frame` (isotp_handler.py lines 88-96): the single
CAN frame written for payloads of 1..7 bytes. -/
def sendSingleFrame (data : List Nat) : List Nat :=
  padTo8 (((SINGLE_FRAME <<< 4) ||| data.length) :: data)

/-- The First Frame built by `ISOTPHandler._send_multi_frame`
(isotp_handler.py lines 102-105). -/
def firstFrame (data : List Nat) : List Nat :=
  ((FIRST_FRAME <<< 4) ||| ((data.length >>> 8) &&& 0x0F))
    :: (data.length &&& 0xFF) :: data.take 6

/-- The body of the Consecutive Frame loop of `ISOTPHandler._send_multi_frame`
(isotp_handler.py lines 117-138): 7-byte chunks with sequence numbers wrapping
mod 16.  `fuel` bounds the number of iterations; the loop runs while data
remains, so any fuel of at least `remaining.length` is exact. -/
def sendCFLoop : Nat → List Nat → Nat → List (List Nat)
  | _, [], _ => []
  | 0, _ :: _, _ => []
  | fuel + 1, b :: rest, seqNum =>
    padTo8 (((CONSECUTIVE_FRAME <<< 4) ||| (seqNum &&& 0x0F)) :: (b :: rest).take 7)
      :: sendCFLoop fuel ((b :: rest).drop 7) ((seqNum + 1) % 16)

/-- The Consecutive Frames built by `ISOTPHandler._send_multi_frame`. -/
def sendConsecutiveFrames (remaining : List Nat) (seqNum : Nat) : List (List Nat) :=
  sendCFLoop remaining.length remaining seqNum

/-- `ISOTPHandler._wait_for_flow_control` (isotp_handler.py lines 141-164): scan
the messages observed on the response id before the timeout for the first
Flow Control frame; return its (status, bs, stmin), or `none` on timeout.
The status is returned as-is; the caller decides what to do with it. -/
def waitForFlowControl : List CanMsg → Option (Nat × Nat × Nat)
  | [] => none
  | (_, data) :: rest =>
    match data with
    | [] => waitForFlowControl rest
    | d0 :: ds =>
      if (d0 >>> 4) &&& 0x0F = FLOW_CONTROL then
        some (d0 &&& 0x0F, ds.headD 0, (ds.drop 1).headD 0)
      else waitForFlowControl rest

/-- Outcome of `ISOTPHandler.send`: success flag, the frames passed to
`j2534.write_message` in order, and the errors registered with the global
handler.  Writes to the channel are modelled as succeeding. -/
structure SendResult where
  ok : Bool
  written : List (List Nat)
  errors : List ErrorRecord
deriving DecidableEq, Repr

/-- `ISOTPHandler._send_multi_frame` (isotp_handler.py lines 98-139): write the
First Frame, wait for a Flow Control, and fail unless its status is
`FC_CONTINUE`; otherwise write the Consecutive Frames.  `fcMsgs` are the
messages the flow-control wait observes. -/
def sendMultiFrame (fcMsgs : List CanMsg) (data : List Nat) : SendResult :=
  let ff := firstFrame data
  match waitForFlowControl fcMsgs with
  | none => { ok := false, written := [ff], errors := [] }
  | some (status, _, _) =>
    if status ≠ FC_CONTINUE then { ok := false, written := [ff], errors := [] }
    else { ok := true, written := ff :: sendConsecutiveFrames (data.drop 6) 1, errors := [] }

/-- `ISOTPHandler.send` (isotp_handler.py lines 41-86): validation, dispatch to
single- or multi-frame transmission, and error registration on failure. -/
def isotpSend (fcMsgs : List CanMsg) (data : List Nat) : SendResult :=
  if data.length = 0 then { ok := false, written := [], errors := [] }
  else if data.length > 4095 then
    { ok := false, written := []
      errors := [{ message := "Данные слишком большие для ISO-TP"
                   severity := ErrorSeverity.WARNING, category := ErrorCategory.DATA }] }
  else
    let result :=
      if data.length ≤ 7 then
        { ok := true, written := [sendSingleFrame data], errors := [] }
      else sendMultiFrame fcMsgs data
    if result.ok then result
    else { result with
           errors := result.errors ++
             [{ message := "Не удалось отправить ISO-TP сообщение"
                severity := ErrorSeverity.RECOVERABLE, category := ErrorCategory.PROTOCOL }] }

/-! ISO-TP receive path (isotp_handler.py). -/

/-- Multi-frame assembly state of `_receive_multi_frame`: declared total length,
payload assembled so far, next expected sequence number, and the number of
sequence-mismatch warnings logged. -/
structure AsmState where
  total : Nat
  payload : List Nat
  expectedSeq : Nat
  seqWarnings : Nat
deriving DecidableEq, Repr

/-- Processing of one Consecutive Frame with first byte `d0` and remaining bytes
`ds` (isotp_handler.py lines 229-241): a sequence mismatch is only logged, the
data is appended regardless, `min 7 remaining` bytes are taken, and the
expected sequence number advances mod 16. -/
def processCF (st : AsmState) (d0 : Nat) (ds : List Nat) : AsmState :=
  let seqNum := d0 &&& 0x0F
  let warnings := if seqNum ≠ st.expectedSeq then st.seqWarnings + 1 else st.seqWarnings
  let remaining := st.total - st.payload.length
  let chunkLen := min 7 remaining
  { total := st.total
    payload := st.payload ++ ds.take chunkLen
    expectedSeq := (st.expectedSeq + 1) % 16
    seqWarnings := warnings }

/-- The Consecutive Frame loop of `_receive_multi_frame` (isotp_handler.py lines
212-249): as long as the payload is shorter than the declared total, consume
queued messages, feeding Consecutive Frames to `processCF` and skipping
everything else; return `payload[:total]` on completion, `none` when the
messages run out (timeout). -/
def assembleCFs (st : AsmState) (msgs : List CanMsg) : Option (List Nat) :=
  if st.total ≤ st.payload.length then some (st.payload.take st.total)
  else
    match msgs with
    | [] => none
    | (_, data) :: rest =>
      match data with
      | [] => assembleCFs st rest
      | d0 :: ds =>
        if (d0 >>> 4) &&& 0x0F = CONSECUTIVE_FRAME then
          assembleCFs (processCF st d0 ds) rest
        else assembleCFs st rest

/-- `ISOTPHandler._receive_multi_frame` (isotp_handler.py lines 190-249): decode
the 12-bit total length from the First Frame, seed the payload with its 6 data
bytes, and collect Consecutive Frames.  The Flow Control write is modelled as
succeeding.  A First Frame shorter than 2 bytes raises in the source
(`first_frame_data[1]`), which the caller turns into `None`. -/
def receiveMultiFrame (ffData : List Nat) (msgs : List CanMsg) : Option (List Nat) :=
  match ffData with
  | f0 :: f1 :: rest =>
    assembleCFs
      { total := ((f0 &&& 0x0F) <<< 8) ||| f1
        payload := rest.take 6
        expectedSeq := 1
        seqWarnings := 0 } msgs
  | _ => none

/-- `ISOTPHandler.receive` (isotp_handler.py lines 166-188): scan queued
messages for a Single Frame (returning its validated payload) or a First Frame
(handing the remaining messages to multi-frame assembly); other frame types
and invalid Single Frames are skipped; `none` models the timeout. -/
def isotpReceive : List CanMsg → Option (List Nat)
  | [] => none
  | (_, data) :: rest =>
    match data with
    | [] => isotpReceive rest
    | d0 :: ds =>
      let frameType := (d0 >>> 4) &&& 0x0F
      if frameType = SINGLE_FRAME then
        let len := d0 &&& 0x0F
        if len > 7 then isotpReceive rest
        else if ds.length < len then isotpReceive rest
        else some (ds.take len)
      else if frameType = FIRST_FRAME then receiveMultiFrame (d0 :: ds) rest
      else isotpReceive rest

/-! Configured identifiers (config.py). -/

def UDS_REQUEST_ID : Nat := 0x7E0

def UDS_RESPONSE_ID : Nat := 0x7E8

/-- A queue holding one Flow Control frame with status continue, the
environment in which a multi-frame send proceeds. -/
def fcContinueEnv : List CanMsg :=
  [(UDS_RESPONSE_ID, [0x30, 0x00, 0x00, 0x00, 0x00, 0x00, 0x00, 0x00])]

/-- A queue holding a Flow Control frame with status wait followed by one with
status continue, both well within the timeout window. -/
def fcWaitThenContinueEnv : List CanMsg :=
  [(UDS_RESPONSE_ID, [0x31, 0x00, 0x00, 0x00, 0x00, 0x00, 0x00, 0x00]),
   (UDS_RESPONSE_ID, [0x30, 0x00, 0x00, 0x00, 0x00, 0x00, 0x00, 0x00])]

/-! UDS client (uds_client.py). -/

/-- UDS service ids (uds_client.py lines 14-21). -/
def DIAGNOSTIC_SESSION_CONTROL : Nat := 0x10

def READ_DATA_BY_IDENTIFIER : Nat := 0x22

/-- Diagnostic session types (uds_client.py lines 24-27). -/
def DEFAULT_SESSION : Nat := 0x01

def EXTENDED_DIAGNOSTIC_SESSION : Nat := 0x03

def POSITIVE_RESPONSE_OFFSET : Nat := 0x40

def NEGATIVE_RESPONSE : Nat := 0x7F

/-- One uppercase hexadecimal digit. -/
def hexDigit (n : Nat) : String :=
  if n = 0 then "0" else if n = 1 then "1" else if n = 2 then "2"
  else if n = 3 then "3" else if n = 4 then "4" else if n = 5 then "5"
  else if n = 6 then "6" else if n = 7 then "7" else if n = 8 then "8"
  else if n = 9 then "9" else if n = 10 then "A" else if n = 11 then "B"
  else if n = 12 then "C" else if n = 13 then "D" else if n = 14 then "E"
  else "F"

/-- Python `f"{n:02X}"` for byte values: two uppercase hexadecimal digits. -/
def hex2 (n : Nat) : String :=
  hexDigit (n / 16 % 16) ++ hexDigit (n % 16)

/-- `NRC_DESCRIPTIONS.get(nrc, f"Unknown NRC: 0x{nrc:02X}")`
(uds_client.py lines 36-48, 135). -/
def NRC_DESCRIPTIONS (nrc : Nat) : String :=
  if nrc = 0x10 then "General reject"
  else if nrc = 0x11 then "Service not supported"
  else if nrc = 0x12 then "Sub-function not supported"
  else if nrc = 0x13 then "Incorrect message length or invalid format"
  else if nrc = 0x22 then "Conditions not correct"
  else if nrc = 0x31 then "Request out of range"
  else if nrc = 0x33 then "Security access denied"
  else if nrc = 0x35 then "Invalid key"
  else if nrc = 0x36 then "Exceeded number of attempts"
  else if nrc = 0x37 then "Required time delay not expired"
  else if nrc = 0x78 then "Request correctly received but response is pending"
  else "Unknown NRC: 0x" ++ hex2 nrc

/-- Message of the `UDSException` raised for a negative response:
`f"Negative response: {nrc_desc} (0x{nrc:02X})"` (uds_client.py line 141). -/
def negativeResponseMessage (nrc : Nat) : String :=
  "Negative response: " ++ NRC_DESCRIPTIONS nrc ++ " (0x" ++ hex2 nrc ++ ")"

/-- Result of `UDSClient.send_request` as seen by its callers. -/
inductive SRResult where
  /-- `send_request` returned `None` (send failure, timeout, empty response, or a
  malformed negative response). -/
  | noResponse
  /-- `send_request` raised `UDSException` for a negative response with this NRC. -/
  | negative (nrc : Nat)
  /-- `send_request` returned these bytes (positive-response data, or the raw
  response when the first byte matches no expected SID). -/
  | value (resp : List Nat)
deriving DecidableEq, Repr

/-- Response classification of `UDSClient.send_request` (uds_client.py lines
99-155), given the ISO-TP layer's result (`none` models a receive timeout).
The returned list contains the errors registered with the global handler. -/
def sendRequest (serviceId : Nat) (wire : Option (List Nat)) :
    SRResult × List ErrorRecord :=
  match wire with
  | none =>
    (SRResult.noResponse,
     [{ message := "Timeout ожидания UDS ответа"
        severity := ErrorSeverity.RECOVERABLE, category := ErrorCategory.TIMEOUT }])
  | some response =>
    match response with
    | [] => (SRResult.noResponse, [])
    | r0 :: rest =>
      if r0 = serviceId + POSITIVE_RESPONSE_OFFSET then (SRResult.value rest, [])
      else if r0 = NEGATIVE_RESPONSE then
        match rest with
        | _ :: nrc :: _ =>
          (SRResult.negative nrc,
           [{ message := negativeResponseMessage nrc
              severity := if nrc = 0x78 then ErrorSeverity.WARNING else ErrorSeverity.RECOVERABLE
              category := ErrorCategory.PROTOCOL }])
        | _ => (SRResult.noResponse, [])
      else (SRResult.value (r0 :: rest), [])

/-- The kind of exception a `_read_attempt` raises (uds_client.py lines
216-237): a `UDSException` propagated from `send_request`, or a plain
`Exception` for no response, short response, or DID echo mismatch. -/
inductive AttemptError where
  | udsError
  | genericError
deriving DecidableEq, Repr

/-- `_read_attempt` inside `UDSClient.read_data_by_identifier` (uds_client.py
lines 216-237), given the ISO-TP level response for this attempt. -/
def readAttempt (did : Nat) (wire : Option (List Nat)) :
    Except AttemptError (List Nat) :=
  match (sendRequest READ_DATA_BY_IDENTIFIER wire).1 with
  | SRResult.negative _ => Except.error AttemptError.udsError
  | SRResult.noResponse => Except.error AttemptError.genericError
  | SRResult.value response =>
    match response with
    | b0 :: b1 :: rest =>
      if (b0 <<< 8) ||| b1 ≠ did then Except.error AttemptError.genericError
      else Except.ok rest
    | _ => Except.error AttemptError.genericError

/-- Outcome of `read_data_by_identifier`: the returned value and how many
read attempts were performed. -/
structure ReadResult where
  result : Option (List Nat)
  attempts : Nat
deriving DecidableEq, Repr

/-- `UDSClient.read_data_by_identifier` (uds_client.py lines 197-271): DID
validation, a first attempt, and — only when the attempt raised a plain
`Exception` rather than a `UDSException` — a single retry.  `wire1` and
`wire2` are the ISO-TP level responses for the first and (if reached) second
attempt. -/
def readDataByIdentifier (did : Nat) (wire1 wire2 : Option (List Nat)) : ReadResult :=
  if did > 0xFFFF then { result := none, attempts := 0 }
  else
    match readAttempt did wire1 with
    | Except.ok d => { result := some d, attempts := 1 }
    | Except.error AttemptError.udsError => { result := none, attempts := 1 }
    | Except.error AttemptError.genericError =>
      match readAttempt did wire2 with
      | Except.ok d => { result := some d, attempts := 2 }
      | Except.error _ => { result := none, attempts := 2 }

/-- `UDSClient.diagnostic_session_control` (uds_client.py lines 168-181):
returns the success flag and the `current_session` value after the call,
starting from `session`.  Any non-`None` result of `send_request` counts as
success; a raised `UDSException` is caught and yields failure. -/
def diagnosticSessionControl (session sessionType : Nat)
    (wire : Option (List Nat)) : Bool × Nat :=
  match (sendRequest DIAGNOSTIC_SESSION_CONTROL wire).1 with
  | SRResult.value _ => (true, sessionType)
  | SRResult.noResponse => (false, session)
  | SRResult.negative _ => (false, session)

/-! J2534 frame queue (j2534_wrapper.py). -/

/-- `J2534Wrapper._read_loop` (j2534_wrapper.py lines 388-398): each batch
returned by `read_messages` is appended to the message queue in order. -/
def readLoopQueue (batches : List (List CanMsg)) : List CanMsg :=
  batches.foldl (fun queue msgs => queue ++ msgs) []

/-- `J2534Wrapper.get_queued_messages` with a specific `can_id`
(j2534_wrapper.py lines 400-409): the two list comprehensions produce the
matching entries (returned) and the non-matching entries (kept). -/
def getQueuedMessages (queue : List CanMsg) (canId : Nat) :
    List CanMsg × List CanMsg :=
  (queue.filter (fun m => m.1 == canId), queue.filter (fun m => m.1 != canId))

/-! Connection facade (harley_diagnostics.py). -/

/-- Protocol id `ISO15765` (j2534_constants.py line 10). -/
def ISO15765 : Nat := 6

/-- `CAN_BAUDRATE` (config.py): 500 kbit/s. -/
def CAN_BAUDRATE : Nat := 500000

/-- Modelled from the spec: `J2534Wrapper.health_check` is invoked by
`HarleyDiagnostics.connect` (harley_diagnostics.py line 52) but its definition
is missing from the source tree; per the spec it is "a minimal liveness probe
(e.g. read voltage IOCTL or a zero-length read) used before declaring a
connection good".  Modelled as returning whether the adapter responds to the
probe. -/
def health_check (adapterResponsive : Bool) : Bool :=
  adapterResponsive

/-- The externally visible actions of one `connect` attempt, in order. -/
inductive ConnectStep where
  | openDevice
  | connectChannel (protocolId baudrate : Nat)
  | healthCheck
  | determineCanIds
  | setFlowControlFilter (requestId responseId : Nat)
deriving DecidableEq, Repr

/-- Outcome of one `connect` attempt up to filter installation. -/
structure ConnectAttemptResult where
  steps : List ConnectStep
  failure : Option ErrorRecord
deriving DecidableEq, Repr

/-- One attempt of `HarleyDiagnostics.connect` up to filter installation
(harley_diagnostics.py lines 44-64), with auto-detect disabled so that
`_determine_can_ids` returns the configured pair: open the device, connect the
channel with the default protocol and baudrate, run the health probe, and
abort with a Critical Hardware `DiagnosticError` when it fails, otherwise
determine the CAN ids and install the flow-control filter. -/
def connectAttempt (adapterResponsive : Bool) : ConnectAttemptResult :=
  let steps0 := [ConnectStep.openDevice,
                 ConnectStep.connectChannel ISO15765 CAN_BAUDRATE,
                 ConnectStep.healthCheck]
  if health_check adapterResponsive then
    { steps := steps0 ++
        [ConnectStep.determineCanIds,
         ConnectStep.setFlowControlFilter UDS_REQUEST_ID UDS_RESPONSE_ID]
      failure := none }
  else
    { steps := steps0
      failure := some { message := "Адаптер не прошёл проверку здоровья"
                        severity := ErrorSeverity.CRITICAL
                        category := ErrorCategory.HARDWARE } }

/-! Arithmetic helpers for the 4-bit and 8-bit field operations of the source. -/

theorem and_0x0F_eq (n : Nat) : n &&& 0x0F = n % 16 := by
  have h := Nat.and_pow_two_sub_one_eq_mod n 4
  norm_num at h
  exact h

theorem and_0xFF_eq (n : Nat) : n &&& 0xFF = n % 256 := by
  have h := Nat.and_pow_two_sub_one_eq_mod n 8
  norm_num at h
  exact h

theorem shiftRight4_eq (n : Nat) : n >>> 4 = n / 16 := by
  rw [Nat.shiftRight_eq_div_pow]

theorem shiftRight8_eq (n : Nat) : n >>> 8 = n / 256 := by
  rw [Nat.shiftRight_eq_div_pow]

theorem shiftLeft4_or_eq (a b : Nat) (h : b < 16) : (a <<< 4) ||| b = 16 * a + b := by
  have h2 : b < 2 ^ 4 := by simpa using h
  have h3 := (Nat.mul_add_lt_is_or h2 a).symm
  rw [Nat.shiftLeft_eq, Nat.mul_comm]
  norm_num at h3 ⊢
  exact h3

theorem shiftLeft8_or_eq (a b : Nat) (h : b < 256) : (a <<< 8) ||| b = 256 * a + b := by
  have h2 : b < 2 ^ 8 := by simpa using h
  have h3 := (Nat.mul_add_lt_is_or h2 a).symm
  rw [Nat.shiftLeft_eq, Nat.mul_comm]
  norm_num at h3 ⊢
  exact h3

theorem padTo8_cons (b : Nat) (t : List Nat) :
    padTo8 (b :: t) = b :: (t ++ List.replicate (7 - t.length) 0) := by
  unfold padTo8
  rcases Nat.lt_or_ge t.length 7 with hl | hl
  · rw [if_pos (by simp only [List.length_cons]; omega)]
    have hn : 8 - (b :: t).length = 7 - t.length := by
      simp only [List.length_cons]
      omega
    rw [hn, List.cons_append]
  · rw [if_neg (by simp only [List.length_cons]; omega)]
    have h0 : 7 - t.length = 0 := by omega
    simp [h0]

/-! Step equations for the receive loops, provable by reduction. -/

theorem assembleCFs_nil (st : AsmState) :
    assembleCFs st [] =
      if st.total ≤ st.payload.length then some (st.payload.take st.total)
      else none := rfl

theorem assembleCFs_cons (st : AsmState) (cid d0 : Nat) (ds : List Nat)
    (rest : List CanMsg) :
    assembleCFs st ((cid, d0 :: ds) :: rest) =
      if st.total ≤ st.payload.length then some (st.payload.take st.total)
      else if (d0 >>> 4) &&& 0x0F = CONSECUTIVE_FRAME then
        assembleCFs (processCF st d0 ds) rest
      else assembleCFs st rest := rfl

theorem receiveMultiFrame_cons (f0 f1 : Nat) (rest : List Nat) (msgs : List CanMsg) :
    receiveMultiFrame (f0 :: f1 :: rest) msgs =
      assembleCFs
        { total := ((f0 &&& 0x0F) <<< 8) ||| f1, payload := rest.take 6
          expectedSeq := 1, seqWarnings := 0 } msgs := rfl

theorem isotpReceive_cons (cid d0 : Nat) (ds : List Nat) (rest : List CanMsg) :
    isotpReceive ((cid, d0 :: ds) :: rest) =
      if (d0 >>> 4) &&& 0x0F = SINGLE_FRAME then
        if d0 &&& 0x0F > 7 then isotpReceive rest
        else if ds.length < d0 &&& 0x0F then isotpReceive rest
        else some (ds.take (d0 &&& 0x0F))
      else if (d0 >>> 4) &&& 0x0F = FIRST_FRAME then receiveMultiFrame (d0 :: ds) rest
      else isotpReceive rest := rfl

/-- Reassembling the Consecutive Frames produced by the send loop extends the
already-assembled payload with exactly the remaining data, for any starting
sequence numbers on either side. -/
theorem assembleCFs_sendCFLoop (fuel : Nat) :
    ∀ (rem pre : List Nat) (s e w cid : Nat), rem.length ≤ fuel →
      assembleCFs
        { total := pre.length + rem.length, payload := pre
          expectedSeq := e, seqWarnings := w }
        ((sendCFLoop fuel rem s).map (fun f => (cid, f))) = some (pre ++ rem) := by
  induction fuel with
  | zero =>
    intro rem pre s e w cid hle
    have hrem : rem = [] := List.eq_nil_of_length_eq_zero (Nat.le_zero.mp hle)
    subst hrem
    simp [sendCFLoop, assembleCFs_nil]
  | succ fuel ih =>
    intro rem pre s e w cid hle
    match rem with
    | [] => simp [sendCFLoop, assembleCFs_nil]
    | b :: rest =>
      simp only [List.length_cons] at hle
      have hstep : sendCFLoop (fuel + 1) (b :: rest) s =
          padTo8 (((CONSECUTIVE_FRAME <<< 4) ||| (s &&& 0x0F)) :: (b :: rest).take 7)
            :: sendCFLoop fuel ((b :: rest).drop 7) ((s + 1) % 16) := rfl
      have hhdr : (CONSECUTIVE_FRAME <<< 4) ||| (s &&& 0x0F) = 32 + s % 16 := by
        rw [and_0x0F_eq, shiftLeft4_or_eq _ _ (by omega)]
        norm_num [CONSECUTIVE_FRAME]
      rw [hstep, padTo8_cons, hhdr, List.map_cons, assembleCFs_cons]
      rw [if_neg (by simp only [List.length_cons]; omega)]
      rw [if_pos (by rw [shiftRight4_eq, and_0x0F_eq]; simp only [CONSECUTIVE_FRAME]; omega)]
      simp only [processCF, List.length_cons]
      have hr1 : pre.length + (rest.length + 1) - pre.length = rest.length + 1 := by omega
      rw [hr1]
      have h7 : min 7 (rest.length + 1) = ((b :: rest).take 7).length := by
        rw [List.length_take, List.length_cons]
      rw [h7, List.take_left]
      have htot : pre.length + (rest.length + 1) =
          (pre ++ (b :: rest).take 7).length + ((b :: rest).drop 7).length := by
        simp [List.length_append, List.length_take, List.length_drop]
        omega
      rw [htot]
      have hfuel : ((b :: rest).drop 7).length ≤ fuel := by
        simp only [List.length_drop, List.length_cons]
        omega
      rw [ih ((b :: rest).drop 7) (pre ++ (b :: rest).take 7) ((s + 1) % 16)
        ((e + 1) % 16) _ cid hfuel]
      rw [List.append_assoc, List.take_append_drop]

/-- C1: for every byte string of length 1..4095, segmenting it with ISO-TP send
(one Single Frame when the length is at most 7, otherwise a First Frame with
the first 6 bytes followed by Consecutive Frames of up to 7 bytes with
wrapping sequence numbers) and reassembling the produced frames with ISO-TP
receive yields exactly the original byte string. -/
theorem isotp_segment_reassemble_roundtrip (data : List Nat)
    (h1 : 1 ≤ data.length) (h2 : data.length ≤ 4095) :
    isotpReceive (((isotpSend fcContinueEnv data).written).map
      (fun f => (UDS_RESPONSE_ID, f))) = some data := by
  by_cases hsf : data.length ≤ 7
  · have hsend : isotpSend fcContinueEnv data =
        { ok := true, written := [sendSingleFrame data], errors := [] } := by
      unfold isotpSend
      rw [if_neg (show ¬data.length = 0 by omega),
        if_neg (show ¬data.length > 4095 by omega), if_pos hsf]
      rfl
    have hsf1 : sendSingleFrame data =
        data.length :: (data ++ List.replicate (7 - data.length) 0) := by
      unfold sendSingleFrame
      have hh : (SINGLE_FRAME <<< 4) ||| data.length = data.length := by
        rw [shiftLeft4_or_eq _ _ (by omega)]
        norm_num [SINGLE_FRAME]
      rw [hh, padTo8_cons]
    rw [hsend, hsf1, List.map_cons, List.map_nil, isotpReceive_cons]
    rw [if_pos (by rw [shiftRight4_eq, and_0x0F_eq]; simp only [SINGLE_FRAME]; omega)]
    have hand : data.length &&& 0x0F = data.length := by
      rw [and_0x0F_eq]
      omega
    rw [hand, if_neg (by omega)]
    rw [if_neg (by simp only [List.length_append, List.length_replicate, Nat.not_lt]; omega)]
    rw [List.take_left]
  · have hfc : waitForFlowControl fcContinueEnv = some (FC_CONTINUE, 0, 0) := by decide
    have hres : sendMultiFrame fcContinueEnv data =
        { ok := true
          written := firstFrame data :: sendConsecutiveFrames (data.drop 6) 1
          errors := [] } := by
      unfold sendMultiFrame
      rw [hfc]
      rfl
    have hsend : isotpSend fcContinueEnv data =
        { ok := true
          written := firstFrame data :: sendConsecutiveFrames (data.drop 6) 1
          errors := [] } := by
      unfold isotpSend
      rw [if_neg (show ¬data.length = 0 by omega),
        if_neg (show ¬data.length > 4095 by omega),
        if_neg (show ¬data.length ≤ 7 from hsf), hres]
      rfl
    have hA : (data.length >>> 8) &&& 0x0F = data.length / 256 := by
      rw [shiftRight8_eq, and_0x0F_eq]
      omega
    have hff : firstFrame data =
        (16 + data.length / 256) :: (data.length &&& 0xFF) :: data.take 6 := by
      unfold firstFrame
      rw [hA, shiftLeft4_or_eq _ _ (by omega)]
      norm_num [FIRST_FRAME]
    rw [hsend, hff, List.map_cons, isotpReceive_cons]
    rw [if_neg (by rw [shiftRight4_eq, and_0x0F_eq]; simp only [SINGLE_FRAME]; omega)]
    rw [if_pos (by rw [shiftRight4_eq, and_0x0F_eq]; simp only [FIRST_FRAME]; omega)]
    rw [receiveMultiFrame_cons]
    have htotal : (((16 + data.length / 256) &&& 0x0F) <<< 8) ||| (data.length &&& 0xFF) =
        data.length := by
      rw [and_0x0F_eq, and_0xFF_eq]
      have hmod : (16 + data.length / 256) % 16 = data.length / 256 := by omega
      rw [hmod, shiftLeft8_or_eq _ _ (by omega)]
      omega
    rw [htotal]
    have hp6 : (data.take 6).take 6 = data.take 6 := by simp [List.take_take]
    rw [hp6]
    unfold sendConsecutiveFrames
    have hlen6 : (data.take 6).length = 6 := by
      rw [List.length_take]
      omega
    have htot2 : data.length = (data.take 6).length + (data.drop 6).length := by
      rw [hlen6, List.length_drop]
      omega
    rw [htot2]
    exact (assembleCFs_sendCFLoop (data.drop 6).length (data.drop 6) (data.take 6)
      1 1 0 UDS_RESPONSE_ID (le_refl _)).trans (by rw [List.take_append_drop])

/-- Witness for C1 at a concrete 20-byte input. -/
theorem isotp_segment_reassemble_roundtrip_witness :
    isotpReceive (((isotpSend fcContinueEnv
      [1, 2, 3, 4, 5, 6, 7, 8, 9, 10, 11, 12, 13, 14, 15, 16, 17, 18, 19, 20]).written).map
      (fun f => (UDS_RESPONSE_ID, f))) =
    some [1, 2, 3, 4, 5, 6, 7, 8, 9, 10, 11, 12, 13, 14, 15, 16, 17, 18, 19, 20] :=
  isotp_segment_reassemble_roundtrip
    [1, 2, 3, 4, 5, 6, 7, 8, 9, 10, 11, 12, 13, 14, 15, 16, 17, 18, 19, 20]
    (by decide) (by decide)

theorem assembleCFs_cons_nil (st : AsmState) (cid : Nat) (rest : List CanMsg) :
    assembleCFs st ((cid, []) :: rest) =
      if st.total ≤ st.payload.length then some (st.payload.take st.total)
      else assembleCFs st rest := rfl

theorem processCF_total (st : AsmState) (d0 : Nat) (ds : List Nat) :
    (processCF st d0 ds).total = st.total := rfl

/-- Whenever the Consecutive Frame loop returns a payload, that payload has
exactly the declared total length. -/
theorem assembleCFs_some_length (msgs : List CanMsg) :
    ∀ (st : AsmState) (out : List Nat),
      assembleCFs st msgs = some out → out.length = st.total := by
  induction msgs with
  | nil =>
    intro st out h
    rw [assembleCFs_nil] at h
    by_cases hc : st.total ≤ st.payload.length
    · rw [if_pos hc] at h
      obtain rfl : st.payload.take st.total = out := Option.some.inj h
      rw [List.length_take]
      omega
    · rw [if_neg hc] at h
      exact absurd h (by simp)
  | cons m rest ih =>
    intro st out h
    obtain ⟨cid, d⟩ := m
    match d with
    | [] =>
      rw [assembleCFs_cons_nil] at h
      by_cases hc : st.total ≤ st.payload.length
      · rw [if_pos hc] at h
        obtain rfl : st.payload.take st.total = out := Option.some.inj h
        rw [List.length_take]
        omega
      · rw [if_neg hc] at h
        exact ih st out h
    | d0 :: ds =>
      rw [assembleCFs_cons] at h
      by_cases hc : st.total ≤ st.payload.length
      · rw [if_pos hc] at h
        obtain rfl : st.payload.take st.total = out := Option.some.inj h
        rw [List.length_take]
        omega
      · rw [if_neg hc] at h
        by_cases hcf : (d0 >>> 4) &&& 0x0F = CONSECUTIVE_FRAME
        · rw [if_pos hcf] at h
          have := ih (processCF st d0 ds) out h
          rwa [processCF_total] at this
        · rw [if_neg hcf] at h
          exact ih st out h

/-- C4: whenever multi-frame reassembly of a First Frame declaring a 12-bit
total length completes successfully, the returned payload has exactly that
many bytes — also when the last Consecutive Frame carries padding bytes
beyond the declared length. -/
theorem receiveMultiFrame_exact_length (f0 f1 : Nat) (rest : List Nat)
    (msgs : List CanMsg) (out : List Nat)
    (h : receiveMultiFrame (f0 :: f1 :: rest) msgs = some out) :
    out.length = ((f0 &&& 0x0F) <<< 8) ||| f1 := by
  rw [receiveMultiFrame_cons] at h
  exact assembleCFs_some_length msgs _ out h

/-- Witness for C4: a First Frame declaring 8 bytes followed by one Consecutive
Frame whose trailing five bytes are padding. -/
theorem receiveMultiFrame_exact_length_witness :
    ([1, 2, 3, 4, 5, 6, 7, 8] : List Nat).length = ((0x10 &&& 0x0F) <<< 8) ||| 0x08 :=
  receiveMultiFrame_exact_length 0x10 0x08 [1, 2, 3, 4, 5, 6]
    [(UDS_RESPONSE_ID, [0x21, 7, 8, 0xAA, 0xBB, 0xCC, 0xDD, 0xEE])]
    [1, 2, 3, 4, 5, 6, 7, 8] (by decide)

/-- C5: during multi-frame reassembly, a Consecutive Frame whose sequence
number differs from the expected one is still accepted: assembly continues
with the processed state, one warning is recorded, the assembled byte count
advances by `min 7 remaining`, and the expected sequence number advances by
one mod 16.  The frame carries the full 7 data bytes of a padded CAN frame. -/
theorem cf_sequence_mismatch_lenient (st : AsmState) (cid d0 : Nat)
    (ds : List Nat) (msgs : List CanMsg)
    (hcf : (d0 >>> 4) &&& 0x0F = CONSECUTIVE_FRAME)
    (hseq : d0 &&& 0x0F ≠ st.expectedSeq)
    (hlen : 7 ≤ ds.length)
    (hprog : st.payload.length < st.total) :
    assembleCFs st ((cid, d0 :: ds) :: msgs) = assembleCFs (processCF st d0 ds) msgs ∧
    (processCF st d0 ds).seqWarnings = st.seqWarnings + 1 ∧
    (processCF st d0 ds).payload.length =
      st.payload.length + min 7 (st.total - st.payload.length) ∧
    (processCF st d0 ds).expectedSeq = (st.expectedSeq + 1) % 16 := by
  refine ⟨?_, ?_, ?_, ?_⟩
  · rw [assembleCFs_cons, if_neg (by omega), if_pos hcf]
  · simp [processCF, hseq]
  · simp only [processCF, List.length_append, List.length_take]
    omega
  · rfl

/-- Witness for C5: expecting sequence 1, a frame with sequence 5 arrives while
4 of 10 bytes are still missing. -/
theorem cf_sequence_mismatch_lenient_witness :
    assembleCFs ⟨10, [1, 2, 3, 4, 5, 6], 1, 0⟩
        ((UDS_RESPONSE_ID, 0x25 :: [7, 8, 9, 10, 0, 0, 0]) :: []) =
      assembleCFs (processCF ⟨10, [1, 2, 3, 4, 5, 6], 1, 0⟩ 0x25 [7, 8, 9, 10, 0, 0, 0]) [] ∧
    (processCF ⟨10, [1, 2, 3, 4, 5, 6], 1, 0⟩ 0x25 [7, 8, 9, 10, 0, 0, 0]).seqWarnings = 0 + 1 ∧
    (processCF ⟨10, [1, 2, 3, 4, 5, 6], 1, 0⟩ 0x25 [7, 8, 9, 10, 0, 0, 0]).payload.length =
      ([1, 2, 3, 4, 5, 6] : List Nat).length + min 7 (10 - ([1, 2, 3, 4, 5, 6] : List Nat).length) ∧
    (processCF ⟨10, [1, 2, 3, 4, 5, 6], 1, 0⟩ 0x25 [7, 8, 9, 10, 0, 0, 0]).expectedSeq = (1 + 1) % 16 :=
  cf_sequence_mismatch_lenient ⟨10, [1, 2, 3, 4, 5, 6], 1, 0⟩ UDS_RESPONSE_ID 0x25
    [7, 8, 9, 10, 0, 0, 0] [] (by decide) (by decide) (by decide) (by decide)

/-- C8: an empty payload and a payload longer than 4095 bytes are both rejected
by ISO-TP send with no frame written to the channel; the oversize case
additionally records a Data error. -/
theorem isotpSend_rejects_invalid (fcMsgs : List CanMsg) (data : List Nat)
    (h : data.length = 0 ∨ data.length > 4095) :
    (isotpSend fcMsgs data).ok = false ∧
    (isotpSend fcMsgs data).written = [] ∧
    (data.length > 4095 →
      ∃ e ∈ (isotpSend fcMsgs data).errors,
        e.severity = ErrorSeverity.WARNING ∧ e.category = ErrorCategory.DATA) := by
  rcases h with h0 | h0
  · unfold isotpSend
    rw [if_pos h0]
    exact ⟨rfl, rfl, fun hgt => absurd hgt (by omega)⟩
  · unfold isotpSend
    rw [if_neg (show ¬data.length = 0 by omega), if_pos h0]
    refine ⟨rfl, rfl, fun _ => ?_⟩
    exact ⟨{ message := "Данные слишком большие для ISO-TP"
             severity := ErrorSeverity.WARNING, category := ErrorCategory.DATA },
           by simp, rfl, rfl⟩

/-- Witness for C8 at the empty payload and at a 4096-byte payload. -/
theorem isotpSend_rejects_invalid_witness :
    ((isotpSend [] ([] : List Nat)).ok = false ∧
     (isotpSend [] ([] : List Nat)).written = [] ∧
     (([] : List Nat).length > 4095 →
       ∃ e ∈ (isotpSend [] ([] : List Nat)).errors,
         e.severity = ErrorSeverity.WARNING ∧ e.category = ErrorCategory.DATA)) ∧
    ((isotpSend [] (List.replicate 4096 0)).ok = false ∧
     (isotpSend [] (List.replicate 4096 0)).written = [] ∧
     ((List.replicate 4096 (0 : Nat)).length > 4095 →
       ∃ e ∈ (isotpSend [] (List.replicate 4096 0)).errors,
         e.severity = ErrorSeverity.WARNING ∧ e.category = ErrorCategory.DATA)) :=
  ⟨isotpSend_rejects_invalid [] [] (Or.inl rfl),
   isotpSend_rejects_invalid [] (List.replicate 4096 0)
     (Or.inr (by rw [List.length_replicate]; omega))⟩

/-- C2 (divergence from the claim): a Flow Control frame with flag wait makes
the multi-frame send fail with a Protocol error even though a Flow Control
with flag continue follows within the timeout window; the code treats every
status other than continue as a refusal and never keeps waiting. -/
theorem send_fails_on_fc_wait :
    waitForFlowControl fcWaitThenContinueEnv = some (FC_WAIT, 0, 0) ∧
    (isotpSend fcWaitThenContinueEnv [1, 2, 3, 4, 5, 6, 7, 8]).ok = false ∧
    (isotpSend fcWaitThenContinueEnv [1, 2, 3, 4, 5, 6, 7, 8]).errors =
      [{ message := "Не удалось отправить ISO-TP сообщение"
         severity := ErrorSeverity.RECOVERABLE, category := ErrorCategory.PROTOCOL }] :=
  ⟨by decide, by decide, by decide⟩

/-! UDS client properties. -/

theorem sendRequest_cons (serviceId r0 : Nat) (rest : List Nat) :
    sendRequest serviceId (some (r0 :: rest)) =
      if r0 = serviceId + POSITIVE_RESPONSE_OFFSET then (SRResult.value rest, [])
      else if r0 = NEGATIVE_RESPONSE then
        match rest with
        | _ :: nrc :: _ =>
          (SRResult.negative nrc,
           [{ message := negativeResponseMessage nrc
              severity := if nrc = 0x78 then ErrorSeverity.WARNING else ErrorSeverity.RECOVERABLE
              category := ErrorCategory.PROTOCOL }])
        | _ => (SRResult.noResponse, [])
      else (SRResult.value (r0 :: rest), []) := rfl

/-- C6: a negative response (first byte 0x7F, at least 3 bytes) to a request
whose positive-response SID is not itself 0x7F makes send_request register
exactly one Protocol error whose message embeds the human-readable NRC
description, with Warning severity for NRC 0x78 and Recoverable severity for
every other NRC; in particular the response 7F 22 31 to ReadDataByIdentifier
registers a Protocol error whose message contains "Request out of range" and
the NRC 0x31. -/
theorem negative_response_classification (serviceId sid2 nrc : Nat)
    (rest : List Nat)
    (hsid : serviceId + POSITIVE_RESPONSE_OFFSET ≠ NEGATIVE_RESPONSE) :
    (sendRequest serviceId (some (0x7F :: sid2 :: nrc :: rest))).1 = SRResult.negative nrc ∧
    (sendRequest serviceId (some (0x7F :: sid2 :: nrc :: rest))).2 =
      [{ message := negativeResponseMessage nrc
         severity := if nrc = 0x78 then ErrorSeverity.WARNING else ErrorSeverity.RECOVERABLE
         category := ErrorCategory.PROTOCOL }] ∧
    (∃ s1 s2, negativeResponseMessage nrc = s1 ++ NRC_DESCRIPTIONS nrc ++ s2) ∧
    negativeResponseMessage 0x31 = "Negative response: Request out of range (0x31)" ∧
    (sendRequest READ_DATA_BY_IDENTIFIER (some [0x7F, 0x22, 0x31])).2 =
      [{ message := "Negative response: Request out of range (0x31)"
         severity := ErrorSeverity.RECOVERABLE, category := ErrorCategory.PROTOCOL }] := by
  have hmain : sendRequest serviceId (some (0x7F :: sid2 :: nrc :: rest)) =
      (SRResult.negative nrc,
       [{ message := negativeResponseMessage nrc
          severity := if nrc = 0x78 then ErrorSeverity.WARNING else ErrorSeverity.RECOVERABLE
          category := ErrorCategory.PROTOCOL }]) := by
    rw [sendRequest_cons, if_neg (fun hh => hsid hh.symm),
      if_pos (show (0x7F : Nat) = NEGATIVE_RESPONSE from rfl)]
  refine ⟨by rw [hmain], by rw [hmain], ?_, by decide, by decide⟩
  exact ⟨"Negative response: ", " (0x" ++ hex2 nrc ++ ")",
    by unfold negativeResponseMessage; simp [String.append_assoc]⟩

/-- Witness for C6 at the response 7F 22 31 to service 0x22. -/
theorem negative_response_classification_witness :
    (sendRequest 0x22 (some (0x7F :: 0x22 :: 0x31 :: []))).1 = SRResult.negative 0x31 ∧
    (sendRequest 0x22 (some (0x7F :: 0x22 :: 0x31 :: []))).2 =
      [{ message := negativeResponseMessage 0x31
         severity := if (0x31 : Nat) = 0x78 then ErrorSeverity.WARNING else ErrorSeverity.RECOVERABLE
         category := ErrorCategory.PROTOCOL }] ∧
    (∃ s1 s2, negativeResponseMessage 0x31 = s1 ++ NRC_DESCRIPTIONS 0x31 ++ s2) ∧
    negativeResponseMessage 0x31 = "Negative response: Request out of range (0x31)" ∧
    (sendRequest READ_DATA_BY_IDENTIFIER (some [0x7F, 0x22, 0x31])).2 =
      [{ message := "Negative response: Request out of range (0x31)"
         severity := ErrorSeverity.RECOVERABLE, category := ErrorCategory.PROTOCOL }] :=
  negative_response_classification 0x22 0x22 0x31 [] (by decide)

/-- C3 (counterexample): the first attempt answers with a DID echo of 0x0000
instead of the requested 0x1234 — a Data error per the claim — yet a second
attempt is performed and its value is returned, so the error did not propagate
immediately and a retry did occur. -/
theorem readDID_data_error_retried_counterexample :
    readAttempt 0x1234 (some [0x62, 0x00, 0x00]) =
      Except.error AttemptError.genericError ∧
    readDataByIdentifier 0x1234 (some [0x62, 0x00, 0x00])
        (some [0x62, 0x12, 0x34, 0xAB]) =
      { result := some [0xAB], attempts := 2 } :=
  ⟨rfl, by decide⟩

/-- C3 (amended): read_data_by_identifier performs a single retry for every
first-attempt failure that raises a plain Exception — no response, a response
shorter than 2 bytes, or a DID-echo mismatch (Data errors included) — and
never retries after a negative-response NRC, which returns failure after one
attempt; a successful first attempt returns immediately. -/
theorem readDID_retry_policy (did : Nat) (w1 w2 : Option (List Nat))
    (hdid : did ≤ 0xFFFF) :
    (∀ d, readAttempt did w1 = Except.ok d →
      readDataByIdentifier did w1 w2 = { result := some d, attempts := 1 }) ∧
    (readAttempt did w1 = Except.error AttemptError.udsError →
      readDataByIdentifier did w1 w2 = { result := none, attempts := 1 }) ∧
    (readAttempt did w1 = Except.error AttemptError.genericError →
      (readDataByIdentifier did w1 w2).attempts = 2) ∧
    (∀ b0 b1 drest,
      w1 = some ((READ_DATA_BY_IDENTIFIER + POSITIVE_RESPONSE_OFFSET) :: b0 :: b1 :: drest) →
      (b0 <<< 8) ||| b1 ≠ did →
      (readDataByIdentifier did w1 w2).attempts = 2) := by
  have hvalid : ¬did > 0xFFFF := by omega
  refine ⟨?_, ?_, ?_, ?_⟩
  · intro d hok
    unfold readDataByIdentifier
    rw [if_neg hvalid, hok]
  · intro he
    unfold readDataByIdentifier
    rw [if_neg hvalid, he]
  · intro he
    unfold readDataByIdentifier
    rw [if_neg hvalid, he]
    cases hw2 : readAttempt did w2 with
    | ok d => rfl
    | error e2 => rfl
  · intro b0 b1 drest hw1 hne
    have he : readAttempt did w1 = Except.error AttemptError.genericError := by
      rw [hw1]
      show (if (b0 <<< 8) ||| b1 ≠ did then Except.error AttemptError.genericError
            else Except.ok drest) = Except.error AttemptError.genericError
      rw [if_pos hne]
    unfold readDataByIdentifier
    rw [if_neg hvalid, he]
    cases hw2 : readAttempt did w2 with
    | ok d => rfl
    | error e2 => rfl

/-- Witness for C3 (amended) at the DID-echo-mismatch input. -/
theorem readDID_retry_policy_witness :
    (readDataByIdentifier 0x1234
      (some ((READ_DATA_BY_IDENTIFIER + POSITIVE_RESPONSE_OFFSET) :: 0x00 :: 0x00 :: []))
      (some [0x62, 0x12, 0x34, 0xAB])).attempts = 2 :=
  (readDID_retry_policy 0x1234
    (some ((READ_DATA_BY_IDENTIFIER + POSITIVE_RESPONSE_OFFSET) :: 0x00 :: 0x00 :: []))
    (some [0x62, 0x12, 0x34, 0xAB]) (by omega)).2.2.2 0x00 0x00 [] rfl (by decide)

/-- C10 (counterexample): a response whose first byte 0x99 is neither the
positive-response SID 0x50 nor the negative marker 0x7F still counts as
success: the stored session is updated although the response was not
positive. -/
theorem session_updated_without_positive_counterexample :
    diagnosticSessionControl DEFAULT_SESSION EXTENDED_DIAGNOSTIC_SESSION
        (some [0x99, 0x01]) = (true, EXTENDED_DIAGNOSTIC_SESSION) ∧
    (0x99 : Nat) ≠ DIAGNOSTIC_SESSION_CONTROL + POSITIVE_RESPONSE_OFFSET ∧
    (0x99 : Nat) ≠ NEGATIVE_RESPONSE :=
  ⟨by decide, by decide, by decide⟩

/-- C10 (amended): diagnostic_session_control updates the stored session kind
exactly when send_request returns a non-None value — a positive response or a
response with an unexpected first byte; on a negative response (raised
UDSException) or on no response (timeout, empty or malformed response) it
returns failure and leaves the session unchanged. -/
theorem session_state_change (session sessionType : Nat)
    (wire : Option (List Nat)) :
    (∀ v, (sendRequest DIAGNOSTIC_SESSION_CONTROL wire).1 = SRResult.value v →
      diagnosticSessionControl session sessionType wire = (true, sessionType)) ∧
    (∀ nrc, (sendRequest DIAGNOSTIC_SESSION_CONTROL wire).1 = SRResult.negative nrc →
      diagnosticSessionControl session sessionType wire = (false, session)) ∧
    ((sendRequest DIAGNOSTIC_SESSION_CONTROL wire).1 = SRResult.noResponse →
      diagnosticSessionControl session sessionType wire = (false, session)) := by
  refine ⟨?_, ?_, ?_⟩
  · intro v h
    unfold diagnosticSessionControl
    rw [h]
  · intro nrc h
    unfold diagnosticSessionControl
    rw [h]
  · intro h
    unfold diagnosticSessionControl
    rw [h]

/-- Witness for C10 (amended) at a positive session-control response. -/
theorem session_state_change_witness :
    diagnosticSessionControl DEFAULT_SESSION EXTENDED_DIAGNOSTIC_SESSION
      (some [0x50, 0x03]) = (true, EXTENDED_DIAGNOSTIC_SESSION) :=
  (session_state_change DEFAULT_SESSION EXTENDED_DIAGNOSTIC_SESSION
    (some [0x50, 0x03])).1 [0x03] (by decide)

/-! Frame queue properties. -/

theorem filter_length_partition (p : CanMsg → Bool) (l : List CanMsg) :
    (l.filter p).length + (l.filter (fun m => !(p m))).length = l.length := by
  induction l with
  | nil => rfl
  | cons a l ih =>
    by_cases hp : p a = true
    · simp [List.filter_cons, hp]
      omega
    · simp [List.filter_cons, hp, Bool.not_eq_true _ ▸ hp]
      omega

/-- C9: draining the frame queue built by the read loop for one CAN id returns
exactly that id's messages in their arrival order (a sublist of the queue, all
carrying that id), removes only those entries, and leaves the other ids'
messages as a sublist of the queue — hence in their original relative order —
with nothing lost. -/
theorem frame_queue_per_id_fifo (batches : List (List CanMsg)) (canId : Nat) :
    (∀ m ∈ (getQueuedMessages (readLoopQueue batches) canId).1, m.1 = canId) ∧
    ((getQueuedMessages (readLoopQueue batches) canId).1).Sublist (readLoopQueue batches) ∧
    (∀ m ∈ (getQueuedMessages (readLoopQueue batches) canId).2, m.1 ≠ canId) ∧
    ((getQueuedMessages (readLoopQueue batches) canId).2).Sublist (readLoopQueue batches) ∧
    ((getQueuedMessages (readLoopQueue batches) canId).1).length +
      ((getQueuedMessages (readLoopQueue batches) canId).2).length =
      (readLoopQueue batches).length := by
  refine ⟨?_, List.filter_sublist _, ?_, List.filter_sublist _, ?_⟩
  · intro m hm
    have h := (List.mem_filter.mp hm).2
    simpa using h
  · intro m hm
    have h := (List.mem_filter.mp hm).2
    simpa using h
  · exact filter_length_partition (fun m => m.1 == canId) (readLoopQueue batches)

/-- Witness for C9 on a queue holding two ids across two read batches. -/
theorem frame_queue_per_id_fifo_witness :
    ((getQueuedMessages
        (readLoopQueue [[(0x7E8, [1]), (0x7E0, [2])], [(0x7E8, [3])]]) 0x7E8).1).length +
      ((getQueuedMessages
        (readLoopQueue [[(0x7E8, [1]), (0x7E0, [2])], [(0x7E8, [3])]]) 0x7E8).2).length =
      (readLoopQueue [[(0x7E8, [1]), (0x7E0, [2])], [(0x7E8, [3])]]).length :=
  (frame_queue_per_id_fifo [[(0x7E8, [1]), (0x7E0, [2])], [(0x7E8, [3])]] 0x7E8).2.2.2.2

/-! Connection facade properties. -/

/-- C7: a connect attempt opens the device, connects the channel with protocol
ISO15765 at 500 kbit/s, and then runs the health probe; only when the probe
passes does the attempt proceed to CAN-id determination and flow-control
filter installation, and a failed probe aborts the attempt with a Critical
Hardware error before either of those steps. -/
theorem connect_health_check_gate (adapterResponsive : Bool) :
    (connectAttempt adapterResponsive).steps.take 3 =
      [ConnectStep.openDevice, ConnectStep.connectChannel ISO15765 CAN_BAUDRATE,
       ConnectStep.healthCheck] ∧
    (health_check adapterResponsive = true →
      (connectAttempt adapterResponsive).failure = none ∧
      (connectAttempt adapterResponsive).steps =
        [ConnectStep.openDevice, ConnectStep.connectChannel ISO15765 CAN_BAUDRATE,
         ConnectStep.healthCheck, ConnectStep.determineCanIds,
         ConnectStep.setFlowControlFilter UDS_REQUEST_ID UDS_RESPONSE_ID]) ∧
    (health_check adapterResponsive = false →
      (∃ e, (connectAttempt adapterResponsive).failure = some e ∧
        e.severity = ErrorSeverity.CRITICAL ∧ e.category = ErrorCategory.HARDWARE) ∧
      ConnectStep.determineCanIds ∉ (connectAttempt adapterResponsive).steps ∧
      ConnectStep.setFlowControlFilter UDS_REQUEST_ID UDS_RESPONSE_ID ∉
        (connectAttempt adapterResponsive).steps) := by
  cases adapterResponsive with
  | false =>
    refine ⟨by decide, fun h => absurd h (by decide), fun _ => ?_⟩
    refine ⟨⟨{ message := "Адаптер не прошёл проверку здоровья"
               severity := ErrorSeverity.CRITICAL, category := ErrorCategory.HARDWARE },
             rfl, rfl, rfl⟩, by decide, by decide⟩
  | true =>
    exact ⟨by decide, fun _ => ⟨rfl, rfl⟩, fun h => absurd h (by decide)⟩

/-- Witness for C7 at a passing and at a failing health probe. -/
theorem connect_health_check_gate_witness :
    (connectAttempt true).failure = none ∧
    (∃ e, (connectAttempt false).failure = some e ∧
      e.severity = ErrorSeverity.CRITICAL ∧ e.category = ErrorCategory.HARDWARE) :=
  ⟨((connect_health_check_gate true).2.1 rfl).1,
   ((connect_health_check_gate false).2.2 rfl).1⟩
